import Mathlib

/-!
Shallow embedding of the credential-resolution module
`src/py/runai_model_streamer_azure/runai_model_streamer_azure/credentials/credentials.py`.

The module defines a credential bundle (`AzureCredentials`), an environment
resolver (`get_credentials`) that fills unset bundle fields from process
environment variables, and a client builder (`create_blob_service_client`)
that selects one of three authentication strategies in a fixed precedence
order, or raises a `ValueError`.

Modelling conventions:
- Python `Optional[str]` fields become `Option String`.
- Python truthiness of an optional string (`if not creds.x`) is `truthy`:
  `none` and `some ""` are falsy, any non-empty string is truthy.
- The process environment is an explicit `Env` record holding the values
  (present or absent) of the environment variables the module may observe.
  `AZURE_STORAGE_ACCOUNT_KEY` is included so that claims about it can be
  stated, although the source never reads it.
- `BlobServiceClient.from_connection_string(cs)` and
  `BlobServiceClient(account_url=..., credential=...)` become the two
  constructors of the `BlobServiceClient` inductive.
- `raise ValueError(msg)` becomes `Except.error msg`.
- Python `str.startswith` is embedded as `py_startswith`, a character-list
  comparison, matching Python's code-point semantics.
-/

/-- Embedding of Python `str.startswith` over explicit character lists:
`startswith_chars s p` is `true` iff `p` is an initial segment of `s`. -/
def startswith_chars : List Char → List Char → Bool
  | _, [] => true
  | [], _ :: _ => false
  | c :: cs, p :: ps => c == p && startswith_chars cs ps

/-- Embedding of Python `s.startswith(p)`. -/
def py_startswith (s p : String) : Bool :=
  startswith_chars s.data p.data

/-- `contains_chars p s` is `true` iff the character list `p` occurs
contiguously inside `s`. Used to state that an error message mentions a
given phrase (Python `p in s`). -/
def contains_chars (p : List Char) : List Char → Bool
  | [] => startswith_chars [] p
  | c :: cs => startswith_chars (c :: cs) p || contains_chars p cs

/-- Embedding of Python `p in s` for strings. -/
def contains_substring (s p : String) : Bool :=
  contains_chars p.data s.data

/-- Python truthiness of an `Optional[str]`: `None` and `""` are falsy. -/
def truthy : Option String → Bool
  | none => false
  | some s => s != ""

/-- The `AzureCredentials` class: four optional fields, as in `__init__`. -/
structure AzureCredentials where
  connection_string : Option String
  account_name : Option String
  sas_token : Option String
  endpoint : Option String
deriving Repr, DecidableEq

/-- The bundle produced by `AzureCredentials()` with all defaults. -/
def default_bundle : AzureCredentials :=
  ⟨none, none, none, none⟩

/-- The process environment, restricted to the variables the module may
observe. Each field is the value of `os.environ.get` for that variable. -/
structure Env where
  AZURE_STORAGE_CONNECTION_STRING : Option String
  AZURE_STORAGE_ACCOUNT_NAME : Option String
  AZURE_STORAGE_SAS_TOKEN : Option String
  AZURE_STORAGE_ENDPOINT : Option String
  AZURE_STORAGE_ACCOUNT_KEY : Option String
deriving Repr, DecidableEq

/-- An environment with none of the variables present. -/
def empty_env : Env :=
  ⟨none, none, none, none, none⟩

/-- `get_credentials`: fills each bundle field from the corresponding
environment variable when the field is not truthy (Python
`if not credentials.x: credentials.x = os.environ.get(VAR)`); a `None`
argument means `AzureCredentials()`. -/
def get_credentials (env : Env) (credentials : Option AzureCredentials) :
    AzureCredentials :=
  let c := credentials.getD default_bundle
  { connection_string :=
      if truthy c.connection_string then c.connection_string
      else env.AZURE_STORAGE_CONNECTION_STRING
    account_name :=
      if truthy c.account_name then c.account_name
      else env.AZURE_STORAGE_ACCOUNT_NAME
    sas_token :=
      if truthy c.sas_token then c.sas_token
      else env.AZURE_STORAGE_SAS_TOKEN
    endpoint :=
      if truthy c.endpoint then c.endpoint
      else env.AZURE_STORAGE_ENDPOINT }

/-- The credential object passed to `BlobServiceClient` in strategy 3. -/
inductive AzureTokenCredential where
  | DefaultAzureCredential
deriving Repr, DecidableEq

/-- The client handle: either built by
`BlobServiceClient.from_connection_string(cs)`, or by
`BlobServiceClient(account_url=..., credential=...)` where the credential
is absent (SAS embedded in the URL) or a `DefaultAzureCredential`. -/
inductive BlobServiceClient where
  | from_connection_string (conn_str : String)
  | of_account_url (account_url : String) (credential : Option AzureTokenCredential)
deriving Repr, DecidableEq

/-- The `ValueError` message raised when no strategy matches (source
lines 102-108). -/
def no_valid_credentials_message : String :=
  "No valid Azure credentials found. Please provide one of:\n" ++
  "- connection_string\n" ++
  "- account_name + sas_token\n" ++
  "- account_name (will use default Azure credential chain)\n" ++
  "or set corresponding environment variables."

/-- SAS normalization (source line 93):
`creds.sas_token if creds.sas_token.startswith("?") else f"?{creds.sas_token}"`. -/
def normalize_sas (t : String) : String :=
  if py_startswith t "?" then t else "?" ++ t

/-- The account URL expression shared by strategies 2 and 3 (source lines
92 and 97): `creds.endpoint or f"https://{creds.account_name}.blob.core.windows.net"`.
Python `or` yields the first truthy operand. -/
def account_url_of (creds : AzureCredentials) : String :=
  if truthy creds.endpoint then creds.endpoint.getD ""
  else "https://" ++ creds.account_name.getD "" ++ ".blob.core.windows.net"

/-- `create_blob_service_client`: resolves the bundle then tries, in order,
connection string, account name + SAS token, account name with the default
credential chain, and finally raises `ValueError`. -/
def create_blob_service_client (env : Env) (credentials : Option AzureCredentials) :
    Except String BlobServiceClient :=
  let creds := get_credentials env credentials
  if truthy creds.connection_string then
    .ok (.from_connection_string (creds.connection_string.getD ""))
  else if truthy creds.account_name && truthy creds.sas_token then
    .ok (.of_account_url
      (account_url_of creds ++ normalize_sas (creds.sas_token.getD "")) none)
  else if truthy creds.account_name then
    .ok (.of_account_url (account_url_of creds)
      (some .DefaultAzureCredential))
  else
    .error no_valid_credentials_message

/-- Helper: prepending the query separator yields a string that starts
with it. -/
theorem py_startswith_qmark_append (t : String) :
    py_startswith ("?" ++ t) "?" = true := by
  simp [py_startswith, String.data_append, startswith_chars]

/-- C3: a SAS token not beginning with a question mark gets exactly one
prepended; one already beginning with it passes through unchanged; the
normalization is idempotent. -/
theorem normalize_sas_characterization (t : String) :
    (py_startswith t "?" = false → normalize_sas t = "?" ++ t) ∧
    (py_startswith t "?" = true → normalize_sas t = t) ∧
    normalize_sas (normalize_sas t) = normalize_sas t := by
  refine ⟨fun h => by simp [normalize_sas, h], fun h => by simp [normalize_sas, h], ?_⟩
  by_cases h : py_startswith t "?" = true
  · simp [normalize_sas, h]
  · simp only [normalize_sas, h, if_neg, Bool.not_eq_true] at *
    simp [h, py_startswith_qmark_append]

/-- C3 witness: normalization evaluated on concrete tokens. -/
theorem normalize_sas_characterization_witness :
    normalize_sas "sv=2020" = "?sv=2020" ∧
    normalize_sas "?sig=abc" = "?sig=abc" ∧
    normalize_sas (normalize_sas "sv=2020") = normalize_sas "sv=2020" :=
  ⟨(normalize_sas_characterization "sv=2020").1 (by decide),
   (normalize_sas_characterization "?sig=abc").2.1 (by decide),
   (normalize_sas_characterization "sv=2020").2.2⟩

/-- Helper: a bundle field holding a non-empty string is truthy. -/
theorem truthy_some {s : String} (hs : s ≠ "") : truthy (some s) = true := by
  simp [truthy, hs]

/-- Helper: the connection-string branch, shared by several claims. -/
theorem client_of_truthy_connection (env : Env) (b : AzureCredentials)
    (s : String) (hc : b.connection_string = some s) (hs : s ≠ "") :
    create_blob_service_client env (some b) =
      .ok (.from_connection_string s) := by
  simp [create_blob_service_client, get_credentials, hc, truthy_some hs]

/-- C1: whenever `connection_string` is a non-empty string on the bundle,
`create_blob_service_client` builds the handle from it, for every
environment and every value of the other three fields: strategies 2 and 3
are never reached. -/
theorem connection_string_takes_precedence (env : Env) (b : AzureCredentials)
    (s : String) (hc : b.connection_string = some s) (hs : s ≠ "") :
    create_blob_service_client env (some b) =
      .ok (.from_connection_string s) :=
  client_of_truthy_connection env b s hc hs

/-- C1 witness: a bundle with every field set still resolves through the
connection string. -/
theorem connection_string_takes_precedence_witness :
    create_blob_service_client
      ⟨some "envcs", some "envacct", some "envsas", some "envep", some "envkey"⟩
      (some ⟨some "CS", some "acct", some "sas", some "http://ep"⟩) =
      .ok (.from_connection_string "CS") :=
  connection_string_takes_precedence
    ⟨some "envcs", some "envacct", some "envsas", some "envep", some "envkey"⟩
    ⟨some "CS", some "acct", some "sas", some "http://ep"⟩ "CS" rfl (by decide)

/-- C2: when, after environment resolution, the connection string is not
set but both the account name and the SAS token are, the handle is built
from the account URL — the endpoint override when truthy, otherwise
`https://{account_name}.blob.core.windows.net` — with the normalized SAS
token appended, and no separate credential object. -/
theorem account_name_sas_token_url (env : Env) (b : Option AzureCredentials)
    (h1 : truthy (get_credentials env b).connection_string = false)
    (h2 : truthy (get_credentials env b).account_name = true)
    (h3 : truthy (get_credentials env b).sas_token = true) :
    create_blob_service_client env b =
      .ok (.of_account_url
        ((if truthy (get_credentials env b).endpoint
            then (get_credentials env b).endpoint.getD ""
            else "https://" ++ (get_credentials env b).account_name.getD ""
              ++ ".blob.core.windows.net")
          ++ normalize_sas ((get_credentials env b).sas_token.getD "")) none) := by
  simp only [create_blob_service_client, account_url_of, h1, h2, h3,
    Bool.false_eq_true, if_false, Bool.and_self, if_true]

/-- C2 witness: the spec scenario `{account-identifier: "acct", token:
"sv=2020"}` with no environment variables yields the handle with account
URL `https://acct.blob.core.windows.net?sv=2020`. -/
theorem account_name_sas_token_url_witness :
    create_blob_service_client empty_env
      (some ⟨none, some "acct", some "sv=2020", none⟩) =
      .ok (.of_account_url "https://acct.blob.core.windows.net?sv=2020" none) := by
  have h := account_name_sas_token_url empty_env
    (some ⟨none, some "acct", some "sv=2020", none⟩)
    (by decide) (by decide) (by decide)
  rw [h]
  rfl

/-- C8: for the bundle whose only field is `connection-string = "X"`, the
resulting handle is built from `"X"` under every environment, so two runs
differing only in the account-name, token, and endpoint variables produce
the same handle. -/
theorem connection_string_env_independent (e1 e2 : Env) :
    create_blob_service_client e1 (some ⟨some "X", none, none, none⟩) =
      .ok (.from_connection_string "X") ∧
    create_blob_service_client e1 (some ⟨some "X", none, none, none⟩) =
      create_blob_service_client e2 (some ⟨some "X", none, none, none⟩) := by
  have h1 := client_of_truthy_connection e1
    ⟨some "X", none, none, none⟩ "X" rfl (by decide)
  have h2 := client_of_truthy_connection e2
    ⟨some "X", none, none, none⟩ "X" rfl (by decide)
  exact ⟨h1, h1.trans h2.symm⟩

/-- Helper: the default-credential branch, shared by several claims. -/
theorem default_chain_branch (env : Env) (b : Option AzureCredentials)
    (h1 : truthy (get_credentials env b).connection_string = false)
    (h2 : truthy (get_credentials env b).account_name = true)
    (h3 : truthy (get_credentials env b).sas_token = false) :
    create_blob_service_client env b =
      .ok (.of_account_url (account_url_of (get_credentials env b))
        (some .DefaultAzureCredential)) := by
  simp [create_blob_service_client, h1, h2, h3]

/-- Helper: the result never depends on the account-key variable, since
the source never reads it. -/
theorem account_key_independent (env : Env) (k : Option String)
    (b : Option AzureCredentials) :
    create_blob_service_client { env with AZURE_STORAGE_ACCOUNT_KEY := k } b =
      create_blob_service_client env b := rfl

/-- C5: for every bundle resolving to only an account name (no connection
string, no SAS token) with an HTTPS-scheme account URL, the handle is
built from the resolved account URL with the default-identity chain
(`DefaultAzureCredential`), and the account-key environment variable, even
if set, never changes the result. -/
theorem account_name_only_default_chain (env : Env) (b : Option AzureCredentials)
    (h1 : truthy (get_credentials env b).connection_string = false)
    (h2 : truthy (get_credentials env b).account_name = true)
    (h3 : truthy (get_credentials env b).sas_token = false)
    (_h4 : py_startswith (account_url_of (get_credentials env b)) "https://" = true) :
    create_blob_service_client env b =
      .ok (.of_account_url (account_url_of (get_credentials env b))
        (some .DefaultAzureCredential)) ∧
    ∀ k, create_blob_service_client
        { env with AZURE_STORAGE_ACCOUNT_KEY := k } b =
      create_blob_service_client env b :=
  ⟨default_chain_branch env b h1 h2 h3,
   fun k => account_key_independent env k b⟩

/-- C5 witness: the bundle with only `account_name = "acct"` under an
empty environment, whose default account URL is HTTPS. -/
theorem account_name_only_default_chain_witness :
    create_blob_service_client empty_env
      (some ⟨none, some "acct", none, none⟩) =
      .ok (.of_account_url "https://acct.blob.core.windows.net"
        (some .DefaultAzureCredential)) ∧
    create_blob_service_client
        { empty_env with AZURE_STORAGE_ACCOUNT_KEY := some "k" }
        (some ⟨none, some "acct", none, none⟩) =
      create_blob_service_client empty_env
        (some ⟨none, some "acct", none, none⟩) := by
  have h := account_name_only_default_chain empty_env
    (some ⟨none, some "acct", none, none⟩)
    (by decide) (by decide) (by decide) (by decide)
  exact ⟨h.1.trans (by rfl), h.2 (some "k")⟩

/-- C4 counterexample: for the bundle `{account_name = "acct", endpoint =
"http://127.0.0.1:10000/acct"}` with the account-key environment variable
set, the code builds the handle with the default-identity chain — it does
not switch to key-based authentication (no such path exists in the
source), and removing the account-key variable changes nothing. -/
theorem http_endpoint_account_key_ignored :
    create_blob_service_client
      ⟨none, none, none, none, some "secretkey"⟩
      (some ⟨none, some "acct", none, some "http://127.0.0.1:10000/acct"⟩) =
      .ok (.of_account_url "http://127.0.0.1:10000/acct"
        (some .DefaultAzureCredential)) ∧
    create_blob_service_client
      ⟨none, none, none, none, some "secretkey"⟩
      (some ⟨none, some "acct", none, some "http://127.0.0.1:10000/acct"⟩) =
    create_blob_service_client
      ⟨none, none, none, none, none⟩
      (some ⟨none, some "acct", none, some "http://127.0.0.1:10000/acct"⟩) :=
  ⟨rfl, rfl⟩

/-- C4 (amended): for every bundle resolving to only an account name (no
connection string, no SAS token), whatever the endpoint scheme and whether
or not an account-key environment variable is present, the handle is built
with the default-identity chain against the resolved account URL; the
account-key variable never influences the result. -/
theorem account_key_never_used (env : Env) (b : Option AzureCredentials)
    (h1 : truthy (get_credentials env b).connection_string = false)
    (h2 : truthy (get_credentials env b).account_name = true)
    (h3 : truthy (get_credentials env b).sas_token = false) :
    create_blob_service_client env b =
      .ok (.of_account_url (account_url_of (get_credentials env b))
        (some .DefaultAzureCredential)) ∧
    ∀ k, create_blob_service_client
        { env with AZURE_STORAGE_ACCOUNT_KEY := k } b =
      create_blob_service_client env b :=
  ⟨default_chain_branch env b h1 h2 h3,
   fun k => account_key_independent env k b⟩

/-- C4 (amended) witness: the counterexample input, evaluated through the
amended theorem. -/
theorem account_key_never_used_witness :
    create_blob_service_client
      ⟨none, none, none, none, some "secretkey"⟩
      (some ⟨none, some "acct", none, some "http://127.0.0.1:10000/acct"⟩) =
      .ok (.of_account_url "http://127.0.0.1:10000/acct"
        (some .DefaultAzureCredential)) := by
  have h := account_key_never_used
    ⟨none, none, none, none, some "secretkey"⟩
    (some ⟨none, some "acct", none, some "http://127.0.0.1:10000/acct"⟩)
    (by decide) (by decide) (by decide)
  exact h.1.trans (by rfl)

/-- A bundle with no field set (every field non-truthy). -/
def no_field_set (c : AzureCredentials) : Bool :=
  !truthy c.connection_string && !truthy c.account_name &&
  !truthy c.sas_token && !truthy c.endpoint

/-- An environment in which none of the variables read by
`get_credentials` is present. -/
def env_no_relevant_vars (env : Env) : Bool :=
  env.AZURE_STORAGE_CONNECTION_STRING == none &&
  env.AZURE_STORAGE_ACCOUNT_NAME == none &&
  env.AZURE_STORAGE_SAS_TOKEN == none &&
  env.AZURE_STORAGE_ENDPOINT == none

/-- C6: for every bundle with no field set (and for the `None` argument)
under an environment with none of the relevant variables present,
`create_blob_service_client` raises the `ValueError` rather than
returning a handle, and the error message mentions every accepted
credential combination. -/
theorem empty_bundle_configuration_error (env : Env) (c : AzureCredentials)
    (hc : no_field_set c = true) (he : env_no_relevant_vars env = true) :
    create_blob_service_client env (some c) =
      .error no_valid_credentials_message ∧
    create_blob_service_client env none =
      .error no_valid_credentials_message ∧
    contains_substring no_valid_credentials_message "connection_string" = true ∧
    contains_substring no_valid_credentials_message
      "account_name + sas_token" = true ∧
    contains_substring no_valid_credentials_message
      "account_name (will use default Azure credential chain)" = true ∧
    contains_substring no_valid_credentials_message
      "set corresponding environment variables" = true := by
  simp only [no_field_set, Bool.and_eq_true, Bool.not_eq_true'] at hc
  obtain ⟨⟨⟨hc1, hc2⟩, hc3⟩, hc4⟩ := hc
  simp only [env_no_relevant_vars, Bool.and_eq_true, beq_iff_eq] at he
  obtain ⟨⟨⟨he1, he2⟩, he3⟩, he4⟩ := he
  have r1 : (get_credentials env (some c)).connection_string = none := by
    simp [get_credentials, hc1, he1]
  have r2 : (get_credentials env (some c)).account_name = none := by
    simp [get_credentials, hc2, he2]
  have r3 : (get_credentials env (some c)).sas_token = none := by
    simp [get_credentials, hc3, he3]
  refine ⟨?_, ?_, by decide, by decide, by decide, by decide⟩
  · simp [create_blob_service_client, r1, r2, r3, truthy]
  · simp [create_blob_service_client, get_credentials, default_bundle,
      he1, he2, he3, he4, truthy]

/-- C6 witness: the empty bundle under the empty environment. -/
theorem empty_bundle_configuration_error_witness :
    create_blob_service_client empty_env (some default_bundle) =
      .error no_valid_credentials_message ∧
    contains_substring no_valid_credentials_message
      "account_name + sas_token" = true := by
  have h := empty_bundle_configuration_error empty_env default_bundle
    (by decide) (by decide)
  exact ⟨h.1, h.2.2.2.1⟩

/-- C7: `get_credentials` never overwrites a truthy field of the input
bundle, even when the corresponding environment variable is set; a
non-truthy field is replaced by the environment variable's value (hence
stays unset when the variable is absent). -/
theorem get_credentials_never_overwrites (env : Env) (c : AzureCredentials) :
    (truthy c.connection_string = true →
      (get_credentials env (some c)).connection_string = c.connection_string) ∧
    (truthy c.account_name = true →
      (get_credentials env (some c)).account_name = c.account_name) ∧
    (truthy c.sas_token = true →
      (get_credentials env (some c)).sas_token = c.sas_token) ∧
    (truthy c.endpoint = true →
      (get_credentials env (some c)).endpoint = c.endpoint) ∧
    (truthy c.connection_string = false →
      (get_credentials env (some c)).connection_string =
        env.AZURE_STORAGE_CONNECTION_STRING) ∧
    (truthy c.account_name = false →
      (get_credentials env (some c)).account_name =
        env.AZURE_STORAGE_ACCOUNT_NAME) ∧
    (truthy c.sas_token = false →
      (get_credentials env (some c)).sas_token =
        env.AZURE_STORAGE_SAS_TOKEN) ∧
    (truthy c.endpoint = false →
      (get_credentials env (some c)).endpoint =
        env.AZURE_STORAGE_ENDPOINT) := by
  refine ⟨fun h => ?_, fun h => ?_, fun h => ?_, fun h => ?_,
    fun h => ?_, fun h => ?_, fun h => ?_, fun h => ?_⟩ <;>
    simp [get_credentials, h]

/-- C7 witness: a bundle with a set connection string and an unset account
name, under an environment that provides both variables: the set field is
kept, the unset one is filled. -/
theorem get_credentials_never_overwrites_witness :
    (get_credentials ⟨some "envcs", some "envacct", none, none, none⟩
      (some ⟨some "mycs", none, none, none⟩)).connection_string = some "mycs" ∧
    (get_credentials ⟨some "envcs", some "envacct", none, none, none⟩
      (some ⟨some "mycs", none, none, none⟩)).account_name = some "envacct" ∧
    (get_credentials ⟨some "envcs", some "envacct", none, none, none⟩
      (some ⟨some "mycs", none, none, none⟩)).sas_token = none := by
  have h := get_credentials_never_overwrites
    ⟨some "envcs", some "envacct", none, none, none⟩
    ⟨some "mycs", none, none, none⟩
  exact ⟨h.1 (by decide), (h.2.2.2.2.2.1 (by decide)).trans rfl,
    (h.2.2.2.2.2.2.1 (by decide)).trans rfl⟩

/-- C9: a field holding the empty string behaves as unset throughout: the
resolver replaces it by the environment variable's value, and, for every
field, the builder behaves exactly as if the field were absent, so the
strategy associated with an empty-string field is skipped. -/
theorem empty_string_field_is_unset (env : Env) (c : AzureCredentials) :
    (c.connection_string = some "" →
      (get_credentials env (some c)).connection_string =
        env.AZURE_STORAGE_CONNECTION_STRING) ∧
    (c.account_name = some "" →
      (get_credentials env (some c)).account_name =
        env.AZURE_STORAGE_ACCOUNT_NAME) ∧
    (c.sas_token = some "" →
      (get_credentials env (some c)).sas_token =
        env.AZURE_STORAGE_SAS_TOKEN) ∧
    (c.endpoint = some "" →
      (get_credentials env (some c)).endpoint =
        env.AZURE_STORAGE_ENDPOINT) ∧
    (c.connection_string = some "" →
      create_blob_service_client env (some c) =
        create_blob_service_client env
          (some { c with connection_string := none })) ∧
    (c.account_name = some "" →
      create_blob_service_client env (some c) =
        create_blob_service_client env
          (some { c with account_name := none })) ∧
    (c.sas_token = some "" →
      create_blob_service_client env (some c) =
        create_blob_service_client env
          (some { c with sas_token := none })) ∧
    (c.endpoint = some "" →
      create_blob_service_client env (some c) =
        create_blob_service_client env
          (some { c with endpoint := none })) := by
  refine ⟨fun h => ?_, fun h => ?_, fun h => ?_, fun h => ?_,
    fun h => ?_, fun h => ?_, fun h => ?_, fun h => ?_⟩ <;>
    simp [create_blob_service_client, get_credentials, truthy, h]

/-- C9 witness: empty-string fields on concrete bundles: the resolver
overwrites `connection_string = ""` from the environment, and the builder
treats `connection_string = ""`, `account_name = ""`, `sas_token = ""`,
and `endpoint = ""` exactly as absent fields. -/
theorem empty_string_field_is_unset_witness :
    (get_credentials ⟨some "envcs", none, none, none, none⟩
      (some ⟨some "", none, none, none⟩)).connection_string = some "envcs" ∧
    create_blob_service_client empty_env
        (some ⟨some "", some "acct", none, none⟩) =
      create_blob_service_client empty_env
        (some ⟨none, some "acct", none, none⟩) ∧
    create_blob_service_client empty_env
        (some ⟨none, some "", some "sv=2020", none⟩) =
      create_blob_service_client empty_env
        (some ⟨none, none, some "sv=2020", none⟩) ∧
    create_blob_service_client empty_env
        (some ⟨none, some "acct", some "", none⟩) =
      create_blob_service_client empty_env
        (some ⟨none, some "acct", none, none⟩) ∧
    create_blob_service_client empty_env
        (some ⟨none, some "acct", none, some ""⟩) =
      create_blob_service_client empty_env
        (some ⟨none, some "acct", none, none⟩) := by
  have h1 := empty_string_field_is_unset
    ⟨some "envcs", none, none, none, none⟩ ⟨some "", none, none, none⟩
  have h2 := empty_string_field_is_unset empty_env
    ⟨some "", some "acct", none, none⟩
  have h3 := empty_string_field_is_unset empty_env
    ⟨none, some "", some "sv=2020", none⟩
  have h4 := empty_string_field_is_unset empty_env
    ⟨none, some "acct", some "", none⟩
  have h5 := empty_string_field_is_unset empty_env
    ⟨none, some "acct", none, some ""⟩
  exact ⟨(h1.1 rfl).trans rfl, (h2.2.2.2.2.1 rfl).trans rfl,
    (h3.2.2.2.2.2.1 rfl).trans rfl, (h4.2.2.2.2.2.2.1 rfl).trans rfl,
    (h5.2.2.2.2.2.2.2 rfl).trans rfl⟩

/-- C10: a SAS token alone — no connection string, no account name, no
relevant environment variables — never produces a handle: the builder
raises the `ValueError`. -/
theorem sas_token_alone_configuration_error (env : Env) (c : AzureCredentials)
    (_h1 : truthy c.sas_token = true)
    (h2 : truthy c.connection_string = false)
    (h3 : truthy c.account_name = false)
    (he : env_no_relevant_vars env = true) :
    create_blob_service_client env (some c) =
      .error no_valid_credentials_message := by
  simp only [env_no_relevant_vars, Bool.and_eq_true, beq_iff_eq] at he
  obtain ⟨⟨⟨he1, he2⟩, he3⟩, he4⟩ := he
  have r1 : (get_credentials env (some c)).connection_string = none := by
    simp [get_credentials, h2, he1]
  have r2 : (get_credentials env (some c)).account_name = none := by
    simp [get_credentials, h3, he2]
  simp [create_blob_service_client, r1, r2, truthy]

/-- C10 witness: the bundle whose only field is `sas_token = "sv=2020"`
under the empty environment. -/
theorem sas_token_alone_configuration_error_witness :
    create_blob_service_client empty_env
      (some ⟨none, none, some "sv=2020", none⟩) =
      .error no_valid_credentials_message :=
  sas_token_alone_configuration_error empty_env
    ⟨none, none, some "sv=2020", none⟩
    (by decide) (by decide) (by decide) (by decide)
